import Mathlib

/-!
Verification of the city-repair proximity-report pipeline.

The definitions below are a shallow embedding of the TypeScript sources:
* `src/src/lib/supabase-location.ts` — Haversine distance, bounding-box
  candidate query, distance filter/sort pipeline, nearest-report helper,
  two-tier location acquisition;
* `src/src/app/report-incident/page.tsx` — photo upload + report insertion;
* `src/src/app/locate-specific-report/page.tsx` — ILIKE substring search.

Machine floats are embedded as real numbers; the backing store (Supabase /
PostgREST) is embedded as a list of rows together with the standard
semantics of the range / not-null / order / limit operators the code uses.
-/

set_option maxHeartbeats 1600000
set_option linter.unusedVariables false

namespace CityRepair

/-- Two-argument arctangent, the semantics of JavaScript `Math.atan2(y, x)`
restricted to real inputs (standard mathematical atan2 branch structure). -/
noncomputable def atan2 (y x : ℝ) : ℝ :=
  if 0 < x then Real.arctan (y / x)
  else if x < 0 then
    (if 0 ≤ y then Real.arctan (y / x) + Real.pi else Real.arctan (y / x) - Real.pi)
  else
    (if 0 < y then Real.pi / 2 else if y < 0 then -(Real.pi / 2) else 0)

/-- The `a` intermediate of the Haversine computation in
`calculateDistance` (supabase-location.ts lines 59-64). -/
noncomputable def havA (lat1 lon1 lat2 lon2 : ℝ) : ℝ :=
  let dLat := (lat2 - lat1) * Real.pi / 180
  let dLon := (lon2 - lon1) * Real.pi / 180
  Real.sin (dLat / 2) * Real.sin (dLat / 2) +
    Real.cos (lat1 * Real.pi / 180) * Real.cos (lat2 * Real.pi / 180) *
      Real.sin (dLon / 2) * Real.sin (dLon / 2)

/-- `calculateDistance` from `src/src/lib/supabase-location.ts` lines 57-67
(the copy in `reports-around-me/page.tsx` lines 210-220 is identical):
Haversine distance in kilometers with Earth radius `R = 6371`. -/
noncomputable def calculateDistance (lat1 lon1 lat2 lon2 : ℝ) : ℝ :=
  let R : ℝ := 6371
  let a := havA lat1 lon1 lat2 lon2
  let c := 2 * atan2 (Real.sqrt a) (Real.sqrt (1 - a))
  R * c

/-- The Haversine great-circle distance exactly as worded by the spec /
claim C6: `2 * 6371 * atan2(sqrt a, sqrt (1 - a))` with
`a = sin^2(dLat/2) + cos(lat1) * cos(lat2) * sin^2(dLon/2)`, all angles
converted from degrees to radians. -/
noncomputable def haversineSpecDistance (lat1 lon1 lat2 lon2 : ℝ) : ℝ :=
  let dLat := (lat2 - lat1) * Real.pi / 180
  let dLon := (lon2 - lon1) * Real.pi / 180
  let a := Real.sin (dLat / 2) ^ 2 +
    Real.cos (lat1 * Real.pi / 180) * Real.cos (lat2 * Real.pi / 180) *
      Real.sin (dLon / 2) ^ 2
  2 * 6371 * atan2 (Real.sqrt a) (Real.sqrt (1 - a))

/-- A user location as produced by the location acquirer (latitude and
longitude in degrees); the optional address plays no role in the search. -/
structure UserLocation where
  latitude : ℝ
  longitude : ℝ

/-- A row of the `reports` table as selected by the queries
(coordinates are nullable in the schema, hence `Option`). -/
structure ReportRow where
  id : ℕ
  created_at : ℤ
  latitude : Option ℝ
  longitude : Option ℝ
  status : String
  location_string : String
  address : Option String

/-- A report as returned by `fetchReportsNearLocation`: the row enriched
with its computed `distance` field. -/
structure RankedReport where
  row : ReportRow
  distance : ℝ

/-- The `not('latitude','is',null) / not('longitude','is',null)` plus the
four `gte`/`lte` range conditions of the bounding-box query
(supabase-location.ts lines 285-290). -/
noncomputable def boxPass (loc : UserLocation) (radiusInDegrees : ℝ) (r : ReportRow) : Bool :=
  r.latitude.isSome && r.longitude.isSome &&
    decide (loc.latitude - radiusInDegrees ≤ r.latitude.getD 0) &&
    decide (r.latitude.getD 0 ≤ loc.latitude + radiusInDegrees) &&
    decide (loc.longitude - radiusInDegrees ≤ r.longitude.getD 0) &&
    decide (r.longitude.getD 0 ≤ loc.longitude + radiusInDegrees)

/-- The optional `eq('status', status)` filter; `if (status)` in JavaScript
is skipped both for `undefined` and for the empty string (falsy). -/
def statusPass (status : Option String) (r : ReportRow) : Bool :=
  match status with
  | none => true
  | some s => if s = "" then true else r.status == s

/-- `order('created_at', ascending: false)`: newest first. -/
def createdDesc (a b : ReportRow) : Prop := b.created_at ≤ a.created_at

instance : DecidableRel createdDesc := fun a b => by
  unfold createdDesc; infer_instance

/-- The optional `limit(n)` applied to the ordered query result; `if (limit)`
in JavaScript is skipped for `undefined` and for `0` (falsy). -/
def applyLimit (limit : Option ℕ) (l : List α) : List α :=
  match limit with
  | none => l
  | some n => if n = 0 then l else l.take n

/-- The store-side part of `fetchReportsNearLocation`
(supabase-location.ts lines 277-303): non-null coordinates, latitude and
longitude each within `± radiusInDegrees` of the center, optional status
equality, ordered by creation time descending, optional row limit. -/
noncomputable def boundingBoxQuery (loc : UserLocation) (radiusInDegrees : ℝ)
    (status : Option String) (limit : Option ℕ) (table : List ReportRow) :
    List ReportRow :=
  applyLimit limit
    (List.insertionSort createdDesc
      (table.filter (fun r => boxPass loc radiusInDegrees r && statusPass status r)))

/-- The ascending-by-distance comparison used by
`.sort((a, b) => a.distance - b.distance)`. -/
noncomputable def distLe (a b : RankedReport) : Prop := a.distance ≤ b.distance

noncomputable instance : DecidableRel distLe := fun a b => by
  unfold distLe; infer_instance

/-- `fetchReportsNearLocation` (supabase-location.ts lines 264-328): convert
the radius to degrees with the fixed `1 degree ≈ 111 km` approximation, run
the bounding-box store query, then map each candidate to its Haversine
distance, keep only candidates within `radiusKm`, and sort ascending by
distance.  `Number(null)` is `0` in JavaScript, hence `Option.getD 0`
(unreachable for rows passing the non-null filter). -/
noncomputable def fetchReportsNearLocation (loc : UserLocation) (radiusKm : ℝ)
    (status : Option String) (limit : Option ℕ) (table : List ReportRow) :
    List RankedReport :=
  let radiusInDegrees := radiusKm / 111
  let data := boundingBoxQuery loc radiusInDegrees status limit table
  List.insertionSort distLe
    ((data.map (fun r =>
        { row := r
          distance := calculateDistance loc.latitude loc.longitude
            (r.latitude.getD 0) (r.longitude.getD 0) : RankedReport })).filter
      (fun p => decide (p.distance ≤ radiusKm)))

/-- `getNearestReport` (supabase-location.ts lines 460-471):
`fetchReportsNearLocation(userLocation, radiusKm, undefined, 1)` followed by
taking the first element, `null` when empty. -/
noncomputable def getNearestReport (loc : UserLocation) (radiusKm : ℝ)
    (table : List ReportRow) : Option RankedReport :=
  (fetchReportsNearLocation loc radiusKm none (some 1) table).head?

/-! ### Analysis of the Haversine computation -/

theorem atan2_sqrt_eq_arcsin {a : ℝ} (h0 : 0 ≤ a) (h1 : a ≤ 1) :
    atan2 (Real.sqrt a) (Real.sqrt (1 - a)) = Real.arcsin (Real.sqrt a) := by
  rcases lt_or_eq_of_le h1 with hlt | heq
  · have hpos : 0 < Real.sqrt (1 - a) := Real.sqrt_pos.mpr (by linarith)
    rw [atan2, if_pos hpos]
    have hmem : Real.sqrt a ∈ Set.Ioo (-(1 : ℝ)) 1 := by
      constructor
      · have := Real.sqrt_nonneg a; linarith
      · exact (Real.sqrt_lt' one_pos).mpr (by nlinarith)
    rw [Real.arcsin_eq_arctan hmem, Real.sq_sqrt h0]
  · subst heq
    have hz : Real.sqrt (1 - 1) = 0 := by norm_num
    rw [atan2, hz]
    simp [Real.sqrt_one, Real.arcsin_one]

theorem havA_nonneg {lat1 lon1 lat2 lon2 : ℝ}
    (h1 : |lat1| ≤ 90) (h2 : |lat2| ≤ 90) :
    0 ≤ havA lat1 lon1 lat2 lon2 := by
  obtain ⟨h1l, h1r⟩ := abs_le.mp h1
  obtain ⟨h2l, h2r⟩ := abs_le.mp h2
  have hpi := Real.pi_pos
  have hc1 : 0 ≤ Real.cos (lat1 * Real.pi / 180) := by
    apply Real.cos_nonneg_of_mem_Icc
    constructor <;> [nlinarith; nlinarith]
  have hc2 : 0 ≤ Real.cos (lat2 * Real.pi / 180) := by
    apply Real.cos_nonneg_of_mem_Icc
    constructor <;> [nlinarith; nlinarith]
  unfold havA
  have hs1 := sq_nonneg (Real.sin ((lat2 - lat1) * Real.pi / 180 / 2))
  have hs2 := sq_nonneg (Real.sin ((lon2 - lon1) * Real.pi / 180 / 2))
  nlinarith [mul_nonneg hc1 hc2]

theorem hav_le_one_aux {p1 p2 : ℝ} (q : ℝ) (hc1 : 0 ≤ Real.cos p1) (hc2 : 0 ≤ Real.cos p2) :
    Real.sin ((p2 - p1) / 2) ^ 2 + Real.cos p1 * Real.cos p2 * Real.sin q ^ 2 ≤ 1 := by
  have hhalf : Real.sin ((p2 - p1) / 2) ^ 2 = 1 / 2 - Real.cos (p2 - p1) / 2 := by
    rw [Real.sin_sq_eq_half_sub]
    have harg : 2 * ((p2 - p1) / 2) = p2 - p1 := by ring
    rw [harg]
  have hcsub : Real.cos (p2 - p1)
      = Real.cos p2 * Real.cos p1 + Real.sin p2 * Real.sin p1 := Real.cos_sub p2 p1
  have hcadd : Real.cos (p1 + p2)
      = Real.cos p1 * Real.cos p2 - Real.sin p1 * Real.sin p2 := Real.cos_add p1 p2
  have hcb : Real.cos (p1 + p2) ≤ 1 := Real.cos_le_one (p1 + p2)
  have hsq : Real.sin q ^ 2 ≤ 1 := Real.sin_sq_le_one q
  have hsq0 : 0 ≤ Real.sin q ^ 2 := sq_nonneg _
  nlinarith [mul_nonneg hc1 hc2,
    mul_le_of_le_one_right (mul_nonneg hc1 hc2) hsq,
    mul_nonneg (mul_nonneg hc1 hc2) hsq0]

theorem havA_le_one {lat1 lon1 lat2 lon2 : ℝ}
    (h1 : |lat1| ≤ 90) (h2 : |lat2| ≤ 90) :
    havA lat1 lon1 lat2 lon2 ≤ 1 := by
  obtain ⟨h1l, h1r⟩ := abs_le.mp h1
  obtain ⟨h2l, h2r⟩ := abs_le.mp h2
  have hpi := Real.pi_pos
  have hc1 : 0 ≤ Real.cos (lat1 * Real.pi / 180) := by
    apply Real.cos_nonneg_of_mem_Icc
    constructor <;> [nlinarith; nlinarith]
  have hc2 : 0 ≤ Real.cos (lat2 * Real.pi / 180) := by
    apply Real.cos_nonneg_of_mem_Icc
    constructor <;> [nlinarith; nlinarith]
  have key := hav_le_one_aux ((lon2 - lon1) * Real.pi / 180 / 2) hc1 hc2
  have harg : (lat2 - lat1) * Real.pi / 180 / 2
      = (lat2 * Real.pi / 180 - lat1 * Real.pi / 180) / 2 := by ring
  show Real.sin ((lat2 - lat1) * Real.pi / 180 / 2) *
      Real.sin ((lat2 - lat1) * Real.pi / 180 / 2) +
      Real.cos (lat1 * Real.pi / 180) * Real.cos (lat2 * Real.pi / 180) *
        Real.sin ((lon2 - lon1) * Real.pi / 180 / 2) *
        Real.sin ((lon2 - lon1) * Real.pi / 180 / 2) ≤ 1
  rw [harg]
  nlinarith [key]

/-- With physically meaningful latitudes the code's distance equals
`2 * R * arcsin (sqrt a)`. -/
theorem calculateDistance_eq_arcsin {lat1 lon1 lat2 lon2 : ℝ}
    (h1 : |lat1| ≤ 90) (h2 : |lat2| ≤ 90) :
    calculateDistance lat1 lon1 lat2 lon2
      = 6371 * (2 * Real.arcsin (Real.sqrt (havA lat1 lon1 lat2 lon2))) := by
  show 6371 * (2 * atan2 (Real.sqrt (havA lat1 lon1 lat2 lon2))
      (Real.sqrt (1 - havA lat1 lon1 lat2 lon2))) = _
  rw [atan2_sqrt_eq_arcsin (havA_nonneg h1 h2) (havA_le_one h1 h2)]

/-- The computed distance dominates the Earth-surface length of the pure
latitude separation: `6371 * |Δlat| * π/180 ≤ d`. -/
theorem calculateDistance_lat_lower {lat1 lon1 lat2 lon2 : ℝ}
    (h1 : |lat1| ≤ 90) (h2 : |lat2| ≤ 90) :
    6371 * (|lat2 - lat1| * Real.pi / 180) ≤ calculateDistance lat1 lon1 lat2 lon2 := by
  obtain ⟨h1l, h1r⟩ := abs_le.mp h1
  obtain ⟨h2l, h2r⟩ := abs_le.mp h2
  have hpi := Real.pi_pos
  rw [calculateDistance_eq_arcsin h1 h2]
  set d2 := (lat2 - lat1) * Real.pi / 180 / 2 with hd2
  have habs2 : |d2| ≤ Real.pi / 2 := by
    rw [hd2]
    have : (lat2 - lat1) * Real.pi / 180 / 2 = (lat2 - lat1) * (Real.pi / 360) := by ring
    rw [this, abs_mul, abs_of_pos (by positivity : (0:ℝ) < Real.pi / 360)]
    have hb : |lat2 - lat1| ≤ 180 := by
      rw [abs_le]; constructor <;> linarith
    nlinarith [abs_nonneg (lat2 - lat1)]
  have hsin_abs : |Real.sin d2| = Real.sin |d2| := by
    rcases le_or_lt 0 d2 with hpos | hneg
    · rw [abs_of_nonneg hpos, abs_of_nonneg]
      apply Real.sin_nonneg_of_nonneg_of_le_pi hpos
      nlinarith [abs_of_nonneg hpos, habs2]
    · rw [abs_of_neg hneg]
      have hsd : Real.sin d2 ≤ 0 := by
        have hnn : (0:ℝ) ≤ -d2 := by linarith
        have hle : -d2 ≤ Real.pi := by
          rw [abs_of_neg hneg] at habs2; nlinarith
        have hpos := Real.sin_nonneg_of_nonneg_of_le_pi hnn hle
        rw [Real.sin_neg] at hpos; linarith
      rw [abs_of_nonpos hsd, ← Real.sin_neg]
  have hA_ge : Real.sin d2 * Real.sin d2 ≤ havA lat1 lon1 lat2 lon2 := by
    have hc1 : 0 ≤ Real.cos (lat1 * Real.pi / 180) := by
      apply Real.cos_nonneg_of_mem_Icc
      constructor <;> [nlinarith; nlinarith]
    have hc2 : 0 ≤ Real.cos (lat2 * Real.pi / 180) := by
      apply Real.cos_nonneg_of_mem_Icc
      constructor <;> [nlinarith; nlinarith]
    show Real.sin d2 * Real.sin d2 ≤
      Real.sin ((lat2 - lat1) * Real.pi / 180 / 2) *
        Real.sin ((lat2 - lat1) * Real.pi / 180 / 2) +
        Real.cos (lat1 * Real.pi / 180) * Real.cos (lat2 * Real.pi / 180) *
          Real.sin ((lon2 - lon1) * Real.pi / 180 / 2) *
          Real.sin ((lon2 - lon1) * Real.pi / 180 / 2)
    rw [← hd2]
    nlinarith [mul_nonneg hc1 hc2,
      sq_nonneg (Real.sin ((lon2 - lon1) * Real.pi / 180 / 2)),
      mul_nonneg (mul_nonneg hc1 hc2)
        (mul_self_nonneg (Real.sin ((lon2 - lon1) * Real.pi / 180 / 2)))]
  have hsqrt : |Real.sin d2| ≤ Real.sqrt (havA lat1 lon1 lat2 lon2) := by
    have : Real.sqrt (Real.sin d2 * Real.sin d2) ≤
        Real.sqrt (havA lat1 lon1 lat2 lon2) := Real.sqrt_le_sqrt hA_ge
    rwa [Real.sqrt_mul_self_eq_abs] at this
  have harcsin : |d2| ≤ Real.arcsin (Real.sqrt (havA lat1 lon1 lat2 lon2)) := by
    have step1 : Real.arcsin (Real.sin |d2|)
        ≤ Real.arcsin (Real.sqrt (havA lat1 lon1 lat2 lon2)) := by
      apply Real.monotone_arcsin
      rw [← hsin_abs]; exact hsqrt
    rwa [Real.arcsin_sin (by linarith [abs_nonneg d2]) (by linarith [habs2])] at step1
  have habs_eq : |d2| = |lat2 - lat1| * Real.pi / 360 := by
    rw [hd2]
    have : (lat2 - lat1) * Real.pi / 180 / 2 = (lat2 - lat1) * (Real.pi / 360) := by ring
    rw [this, abs_mul, abs_of_pos (by positivity : (0:ℝ) < Real.pi / 360)]
    ring
  rw [habs_eq] at harcsin
  nlinarith [harcsin]

/-- Closed form for a pure south-to-north displacement: with equal
longitudes the Haversine distance is exactly `R` times the latitude
separation in radians. -/
theorem calculateDistance_same_lon {lat1 lat2 lon : ℝ}
    (h1 : |lat1| ≤ 90) (h2 : |lat2| ≤ 90) (h : lat1 ≤ lat2) :
    calculateDistance lat1 lon lat2 lon
      = 6371 * ((lat2 - lat1) * Real.pi / 180) := by
  obtain ⟨h1l, h1r⟩ := abs_le.mp h1
  obtain ⟨h2l, h2r⟩ := abs_le.mp h2
  have hpi := Real.pi_pos
  rw [calculateDistance_eq_arcsin h1 h2]
  set d2 := (lat2 - lat1) * Real.pi / 180 / 2 with hd2
  have hd2nn : 0 ≤ d2 := by rw [hd2]; nlinarith
  have hd2le : d2 ≤ Real.pi / 2 := by rw [hd2]; nlinarith
  have hsinnn : 0 ≤ Real.sin d2 :=
    Real.sin_nonneg_of_nonneg_of_le_pi hd2nn (by linarith)
  have hA : havA lat1 lon lat2 lon = Real.sin d2 * Real.sin d2 := by
    show Real.sin ((lat2 - lat1) * Real.pi / 180 / 2) *
        Real.sin ((lat2 - lat1) * Real.pi / 180 / 2) +
        Real.cos (lat1 * Real.pi / 180) * Real.cos (lat2 * Real.pi / 180) *
          Real.sin ((lon - lon) * Real.pi / 180 / 2) *
          Real.sin ((lon - lon) * Real.pi / 180 / 2) = Real.sin d2 * Real.sin d2
    rw [← hd2]
    simp [sub_self]
  rw [hA, Real.sqrt_mul_self hsinnn,
    Real.arcsin_sin (by linarith) (by linarith)]
  rw [hd2]; ring

theorem havA_self (lat lon : ℝ) : havA lat lon lat lon = 0 := by
  simp [havA, sub_self]

theorem calculateDistance_self (lat lon : ℝ) :
    calculateDistance lat lon lat lon = 0 := by
  show 6371 * (2 * atan2 (Real.sqrt (havA lat lon lat lon))
      (Real.sqrt (1 - havA lat lon lat lon))) = 0
  rw [havA_self]
  norm_num [atan2, Real.arctan_zero]

/-- The concrete east-west counterexample distance: at latitude 60° a
longitude offset of 1.5° is well within 111 km. -/
theorem dist60_le : calculateDistance 60 0 60 (3/2) ≤ 111 := by
  have h90 : |(60:ℝ)| ≤ 90 := by norm_num
  rw [calculateDistance_eq_arcsin h90 h90]
  have hA : havA 60 0 60 (3/2)
      = Real.sin (Real.pi / 240) * Real.sin (Real.pi / 240) / 4 := by
    show Real.sin (((60:ℝ) - 60) * Real.pi / 180 / 2) *
        Real.sin (((60:ℝ) - 60) * Real.pi / 180 / 2) +
        Real.cos ((60:ℝ) * Real.pi / 180) * Real.cos ((60:ℝ) * Real.pi / 180) *
          Real.sin (((3:ℝ)/2 - 0) * Real.pi / 180 / 2) *
          Real.sin (((3:ℝ)/2 - 0) * Real.pi / 180 / 2)
        = Real.sin (Real.pi / 240) * Real.sin (Real.pi / 240) / 4
    have h60 : (60:ℝ) * Real.pi / 180 = Real.pi / 3 := by ring
    have h15 : ((3:ℝ)/2 - 0) * Real.pi / 180 / 2 = Real.pi / 240 := by ring
    have h0 : ((60:ℝ) - 60) * Real.pi / 180 / 2 = 0 := by ring
    rw [h60, h15, h0, Real.cos_pi_div_three, Real.sin_zero]
    ring
  rw [hA]
  have hpi := Real.pi_pos
  have hsin_nn : 0 ≤ Real.sin (Real.pi / 240) :=
    Real.sin_nonneg_of_nonneg_of_le_pi (by positivity) (by nlinarith)
  have hsq : Real.sin (Real.pi / 240) * Real.sin (Real.pi / 240) / 4
      = (Real.sin (Real.pi / 240) / 2) ^ 2 := by ring
  rw [hsq, Real.sqrt_sq (by linarith)]
  have hzb : Real.sin (Real.pi / 240) / 2 ≤ Real.sin (111 / 12742) := by
    have hlt : Real.sin (Real.pi / 240) < Real.pi / 240 := Real.sin_lt (by positivity)
    have hcube : (111:ℝ)/12742 - ((111:ℝ)/12742) ^ 3 / 4 < Real.sin (111 / 12742) :=
      Real.sin_gt_sub_cube (by norm_num) (by norm_num)
    have hpi315 := Real.pi_lt_d2
    nlinarith
  have harc : Real.arcsin (Real.sin (Real.pi / 240) / 2) ≤ 111 / 12742 := by
    have hmono := Real.monotone_arcsin hzb
    have h3 := Real.pi_gt_three
    rwa [Real.arcsin_sin (by nlinarith) (by nlinarith)] at hmono
  nlinarith [harc]

/-! ### Pipeline facts -/

instance : IsTotal RankedReport distLe :=
  ⟨fun a b => le_total a.distance b.distance⟩

instance : IsTrans RankedReport distLe :=
  ⟨fun _ _ _ hab hbc => le_trans hab hbc⟩

instance : IsTotal ReportRow createdDesc :=
  ⟨fun a b => le_total b.created_at a.created_at⟩

instance : IsTrans ReportRow createdDesc :=
  ⟨fun _ _ _ hab hbc => le_trans hbc hab⟩

theorem mem_boundingBoxQuery {loc : UserLocation} {δ : ℝ} {status : Option String}
    {limit : Option ℕ} {table : List ReportRow} {x : ReportRow}
    (hx : x ∈ boundingBoxQuery loc δ status limit table) :
    x ∈ table ∧ boxPass loc δ x = true ∧ statusPass status x = true := by
  unfold boundingBoxQuery at hx
  have hx2 : x ∈ List.insertionSort createdDesc
      (table.filter (fun r => boxPass loc δ r && statusPass status r)) := by
    rcases limit with _ | n
    · simpa [applyLimit] using hx
    · simp only [applyLimit] at hx
      by_cases hn : n = 0
      · rw [if_pos hn] at hx; exact hx
      · rw [if_neg hn] at hx; exact List.take_subset n _ hx
  rw [List.mem_insertionSort, List.mem_filter, Bool.and_eq_true] at hx2
  exact ⟨hx2.1, hx2.2.1, hx2.2.2⟩

theorem mem_fetch {loc : UserLocation} {r : ℝ} {status : Option String}
    {limit : Option ℕ} {table : List ReportRow} {rep : RankedReport}
    (h : rep ∈ fetchReportsNearLocation loc r status limit table) :
    rep.row ∈ boundingBoxQuery loc (r / 111) status limit table ∧
    rep.distance = calculateDistance loc.latitude loc.longitude
      (rep.row.latitude.getD 0) (rep.row.longitude.getD 0) ∧
    rep.distance ≤ r := by
  simp only [fetchReportsNearLocation] at h
  rw [List.mem_insertionSort, List.mem_filter] at h
  obtain ⟨hmem, hdec⟩ := h
  rw [List.mem_map] at hmem
  obtain ⟨a, ha, hfa⟩ := hmem
  rw [decide_eq_true_eq] at hdec
  subst hfa
  exact ⟨ha, rfl, hdec⟩

theorem sorted_fetch (loc : UserLocation) (r : ℝ) (status : Option String)
    (limit : Option ℕ) (table : List ReportRow) :
    List.Sorted distLe (fetchReportsNearLocation loc r status limit table) := by
  simp only [fetchReportsNearLocation]
  exact List.sorted_insertionSort distLe _

/-! ### Concrete inputs used to exercise the pipeline -/

noncomputable def locO : UserLocation := ⟨0, 0⟩

noncomputable def loc60 : UserLocation := ⟨60, 0⟩

/-- A report at the exact center `(0, 0)`, created at time 1. -/
noncomputable def rowA : ReportRow :=
  ⟨1, 1, some 0, some 0, "pending", "center", none⟩

/-- A report at the exact center `(0, 0)`, created at time 2. -/
noncomputable def rowB : ReportRow :=
  ⟨2, 2, some 0, some 0, "pending", "center2", none⟩

/-- A report 0.9 degrees of latitude north (≈ 100.08 km), created at
time 2: inside the bounding box for a 100 km radius (0.9 < 100/111) yet
outside the exact 100 km radius. -/
noncomputable def rowFarC7 : ReportRow :=
  ⟨3, 2, some (9/10), some 0, "pending", "far", none⟩

/-- A report half a degree of latitude north (≈ 55.6 km), created at time 2. -/
noncomputable def rowHalfC7 : ReportRow :=
  ⟨4, 2, some (1/2), some 0, "pending", "half", none⟩

/-- A report at latitude 60°, longitude 1.5°: within 111 km Haversine
distance of `(60, 0)` but outside that center's longitude band. -/
noncomputable def row60 : ReportRow :=
  ⟨5, 1, some 60, some (3/2), "pending", "east", none⟩

theorem dFar_gt : 100 < calculateDistance 0 0 (9/10) 0 := by
  rw [calculateDistance_same_lon (by norm_num)
    (by rw [abs_le]; constructor <;> norm_num) (by norm_num)]
  nlinarith [Real.pi_gt_d6]

theorem dHalf_le : calculateDistance 0 0 (1/2) 0 ≤ 100 := by
  rw [calculateDistance_same_lon (by norm_num)
    (by rw [abs_le]; constructor <;> norm_num) (by norm_num)]
  nlinarith [Real.pi_lt_d2]

theorem dHalf_pos : 0 < calculateDistance 0 0 (1/2) 0 := by
  rw [calculateDistance_same_lon (by norm_num)
    (by rw [abs_le]; constructor <;> norm_num) (by norm_num)]
  nlinarith [Real.pi_gt_d2]

theorem boxPass_rowA : boxPass locO (5/111) rowA = true := by
  simp [boxPass, locO, rowA]
  norm_num

theorem boxPass_rowB : boxPass locO (5/111) rowB = true := by
  simp [boxPass, locO, rowB]
  norm_num

theorem boundingBox_evalA : boundingBoxQuery locO (5/111) none none [rowA] = [rowA] := by
  simp [boundingBoxQuery, applyLimit, List.filter, boxPass_rowA, statusPass]

theorem evalFetchA : fetchReportsNearLocation locO 5 none none [rowA]
    = [⟨rowA, 0⟩] := by
  simp only [fetchReportsNearLocation]
  rw [boundingBox_evalA]
  have hd : calculateDistance locO.latitude locO.longitude
      (rowA.latitude.getD 0) (rowA.longitude.getD 0) = 0 := by
    simp [locO, rowA]
    exact calculateDistance_self 0 0
  simp [hd, List.filter]

theorem boundingBox_evalBA : boundingBoxQuery locO (5/111) none none [rowB, rowA]
    = [rowB, rowA] := by
  have hcd : createdDesc rowB rowA := by norm_num [createdDesc, rowA, rowB]
  simp [boundingBoxQuery, applyLimit, List.filter, boxPass_rowA, boxPass_rowB,
    statusPass, List.insertionSort, List.orderedInsert, hcd]

theorem evalFetchBA : fetchReportsNearLocation locO 5 none none [rowB, rowA]
    = [⟨rowB, 0⟩, ⟨rowA, 0⟩] := by
  simp only [fetchReportsNearLocation]
  rw [boundingBox_evalBA]
  have hdA : calculateDistance locO.latitude locO.longitude
      (rowA.latitude.getD 0) (rowA.longitude.getD 0) = 0 := by
    simp [locO, rowA]
    exact calculateDistance_self 0 0
  have hdB : calculateDistance locO.latitude locO.longitude
      (rowB.latitude.getD 0) (rowB.longitude.getD 0) = 0 := by
    simp [locO, rowB]
    exact calculateDistance_self 0 0
  simp [hdA, hdB, List.filter, List.insertionSort, List.orderedInsert, distLe]

theorem boxPass60_false : boxPass loc60 (111/111) row60 = false := by
  simp [boxPass, loc60, row60]
  norm_num

theorem boundingBox_eval60 : boundingBoxQuery loc60 (111/111) none none [row60] = [] := by
  have hfalse1 : boxPass loc60 1 row60 = false := by
    have h111 : (111:ℝ)/111 = 1 := by norm_num
    rw [← h111]; exact boxPass60_false
  simp [boundingBoxQuery, applyLimit, List.filter, boxPass60_false, hfalse1]

theorem evalFetch60 : fetchReportsNearLocation loc60 111 none none [row60] = [] := by
  simp only [fetchReportsNearLocation]
  rw [boundingBox_eval60]
  simp

/-! ### Claims about the proximity pipeline -/

/-- C1: for every radius `r > 0`, center, optional filters and table, every
report in the result of the combined proximity search has (computed
Haversine) distance to the center at most `r`; the pipeline maps each
candidate to its distance and keeps only those with distance ≤ `r`. -/
theorem claim_C1_within_radius (loc : UserLocation) (r : ℝ)
    (status : Option String) (limit : Option ℕ) (table : List ReportRow)
    (hr : 0 < r) :
    ∀ rep ∈ fetchReportsNearLocation loc r status limit table,
      rep.distance ≤ r ∧
      rep.distance = calculateDistance loc.latitude loc.longitude
        (rep.row.latitude.getD 0) (rep.row.longitude.getD 0) := by
  intro rep h
  obtain ⟨-, hd, hle⟩ := mem_fetch h
  exact ⟨hle, hd⟩

theorem claim_C1_witness :
    (0:ℝ) < 5 ∧
    ∀ rep ∈ fetchReportsNearLocation locO 5 none none [rowA],
      rep.distance ≤ 5 ∧
      rep.distance = calculateDistance locO.latitude locO.longitude
        (rep.row.latitude.getD 0) (rep.row.longitude.getD 0) :=
  ⟨by norm_num, claim_C1_within_radius locO 5 none none [rowA] (by norm_num)⟩

/-- C2, as falsified by the code: at center `(60, 0)` (latitude magnitude
below 85°) with radius 111 km, the report at `(60, 1.5)` has Haversine
distance ≤ 111 km yet fails the bounding-box longitude predicate, and the
whole proximity search on a table holding only that report returns
nothing — the box is not a superset of the circle. -/
theorem claim_C2_counterexample :
    |(60:ℝ)| < 85 ∧
    row60.latitude = some 60 ∧ row60.longitude = some (3/2) ∧
    calculateDistance 60 0 60 (3/2) ≤ 111 ∧
    boxPass loc60 (111/111) row60 = false ∧
    fetchReportsNearLocation loc60 111 none none [row60] = [] :=
  ⟨by norm_num, rfl, rfl, dist60_le, boxPass60_false, evalFetch60⟩

/-- C2 amended: the claim holds in the north-south direction only.  For
physically meaningful latitudes, any point within Haversine distance `r`
of the center lies inside the latitude band
`[center - r/111, center + r/111]` of the bounding box; the longitude band
can exclude points within distance `r` (see the counterexample). -/
theorem claim_C2_box_superset_latitude (lat1 lon1 lat2 lon2 r : ℝ)
    (h1 : |lat1| ≤ 90) (h2 : |lat2| ≤ 90)
    (hd : calculateDistance lat1 lon1 lat2 lon2 ≤ r) :
    lat1 - r / 111 ≤ lat2 ∧ lat2 ≤ lat1 + r / 111 := by
  have hlow := @calculateDistance_lat_lower lat1 lon1 lat2 lon2 h1 h2
  have habs : |lat2 - lat1| ≤ r / 111 := by
    nlinarith [Real.pi_gt_d6, abs_nonneg (lat2 - lat1)]
  obtain ⟨ha, hb⟩ := abs_le.mp habs
  constructor <;> linarith

theorem claim_C2_witness :
    |(0:ℝ)| ≤ 90 ∧ calculateDistance 0 0 0 0 ≤ 111 ∧
    ((0:ℝ) - 111 / 111 ≤ 0 ∧ (0:ℝ) ≤ 0 + 111 / 111) := by
  refine ⟨by norm_num, ?_, ?_⟩
  · rw [calculateDistance_self]; norm_num
  · exact claim_C2_box_superset_latitude 0 0 0 0 111 (by norm_num) (by norm_num)
      (by rw [calculateDistance_self]; norm_num)

/-- C3: the output of the proximity search is sorted ascending by the
computed distance: for indices `i < j` of the returned list,
`distance(i) ≤ distance(j)`. -/
theorem claim_C3_sorted_by_distance (loc : UserLocation) (r : ℝ)
    (status : Option String) (limit : Option ℕ) (table : List ReportRow)
    (i j : ℕ) (hij : i < j)
    (hj : j < (fetchReportsNearLocation loc r status limit table).length) :
    ((fetchReportsNearLocation loc r status limit table).get
        ⟨i, Nat.lt_trans hij hj⟩).distance ≤
    ((fetchReportsNearLocation loc r status limit table).get ⟨j, hj⟩).distance := by
  have hs := sorted_fetch loc r status limit table
  exact hs.rel_get_of_lt (Fin.mk_lt_mk.mpr hij)

theorem claim_C3_witness :
    ∃ hj : 1 < (fetchReportsNearLocation locO 5 none none [rowB, rowA]).length,
      ((fetchReportsNearLocation locO 5 none none [rowB, rowA]).get
          ⟨0, Nat.lt_trans Nat.zero_lt_one hj⟩).distance ≤
      ((fetchReportsNearLocation locO 5 none none [rowB, rowA]).get ⟨1, hj⟩).distance := by
  have hj : 1 < (fetchReportsNearLocation locO 5 none none [rowB, rowA]).length := by
    rw [evalFetchBA]; norm_num
  exact ⟨hj,
    claim_C3_sorted_by_distance locO 5 none none [rowB, rowA] 0 1 Nat.zero_lt_one hj⟩

/-- C6: `calculateDistance` computes exactly the Haversine great-circle
distance of the spec: `2 * 6371 * atan2(sqrt a, sqrt (1 - a))` with
`a = sin²(dLat/2) + cos(lat1)·cos(lat2)·sin²(dLon/2)` in radians. -/
theorem claim_C6_haversine_formula :
    ∀ lat1 lon1 lat2 lon2 : ℝ,
      calculateDistance lat1 lon1 lat2 lon2
        = haversineSpecDistance lat1 lon1 lat2 lon2 := by
  intro l1 o1 l2 o2
  have ha : Real.sin ((l2 - l1) * Real.pi / 180 / 2) ^ 2 +
      Real.cos (l1 * Real.pi / 180) * Real.cos (l2 * Real.pi / 180) *
        Real.sin ((o2 - o1) * Real.pi / 180 / 2) ^ 2
      = havA l1 o1 l2 o2 := by
    show _ = Real.sin ((l2 - l1) * Real.pi / 180 / 2) *
        Real.sin ((l2 - l1) * Real.pi / 180 / 2) +
        Real.cos (l1 * Real.pi / 180) * Real.cos (l2 * Real.pi / 180) *
          Real.sin ((o2 - o1) * Real.pi / 180 / 2) *
          Real.sin ((o2 - o1) * Real.pi / 180 / 2)
    ring
  show 6371 * (2 * atan2 (Real.sqrt (havA l1 o1 l2 o2))
      (Real.sqrt (1 - havA l1 o1 l2 o2)))
    = 2 * 6371 * atan2
        (Real.sqrt (Real.sin ((l2 - l1) * Real.pi / 180 / 2) ^ 2 +
          Real.cos (l1 * Real.pi / 180) * Real.cos (l2 * Real.pi / 180) *
            Real.sin ((o2 - o1) * Real.pi / 180 / 2) ^ 2))
        (Real.sqrt (1 - (Real.sin ((l2 - l1) * Real.pi / 180 / 2) ^ 2 +
          Real.cos (l1 * Real.pi / 180) * Real.cos (l2 * Real.pi / 180) *
            Real.sin ((o2 - o1) * Real.pi / 180 / 2) ^ 2)))
  rw [ha]
  ring

/-- C9: a report with null latitude or null longitude is never contained in
the result of the proximity search. -/
theorem claim_C9_nonnull_coordinates (loc : UserLocation) (r : ℝ)
    (status : Option String) (limit : Option ℕ) (table : List ReportRow) :
    ∀ rep ∈ fetchReportsNearLocation loc r status limit table,
      rep.row.latitude ≠ none ∧ rep.row.longitude ≠ none := by
  intro rep h
  obtain ⟨hbox, -, -⟩ := mem_fetch h
  obtain ⟨-, hpass, -⟩ := mem_boundingBoxQuery hbox
  unfold boxPass at hpass
  simp only [Bool.and_eq_true] at hpass
  exact ⟨Option.isSome_iff_ne_none.mp hpass.1.1.1.1.1,
    Option.isSome_iff_ne_none.mp hpass.1.1.1.1.2⟩

theorem claim_C9_witness :
    (⟨rowA, 0⟩ : RankedReport) ∈ fetchReportsNearLocation locO 5 none none [rowA] ∧
    (⟨rowA, 0⟩ : RankedReport).row.latitude ≠ none ∧
    (⟨rowA, 0⟩ : RankedReport).row.longitude ≠ none := by
  have hmem : (⟨rowA, 0⟩ : RankedReport)
      ∈ fetchReportsNearLocation locO 5 none none [rowA] := by
    rw [evalFetchA]; exact List.mem_singleton.mpr rfl
  exact ⟨hmem, claim_C9_nonnull_coordinates locO 5 none none [rowA] ⟨rowA, 0⟩ hmem⟩

/-- C10: the proximity search is a pure function of its inputs and the
store contents — two evaluations with identical center, radius, filters
and table yield identical ordered results. -/
theorem claim_C10_deterministic (loc loc' : UserLocation) (r r' : ℝ)
    (status status' : Option String) (limit limit' : Option ℕ)
    (table table' : List ReportRow)
    (h1 : loc = loc') (h2 : r = r') (h3 : status = status')
    (h4 : limit = limit') (h5 : table = table') :
    fetchReportsNearLocation loc r status limit table
      = fetchReportsNearLocation loc' r' status' limit' table' := by
  subst h1; subst h2; subst h3; subst h4; subst h5; rfl

theorem claim_C10_witness :
    fetchReportsNearLocation locO 5 none none [rowA]
      = fetchReportsNearLocation locO 5 none none [rowA] :=
  claim_C10_deterministic locO locO 5 5 none none none none [rowA] [rowA]
    rfl rfl rfl rfl rfl

/-! ### The nearest-report helper (C7) -/

theorem statusPass_none (x : ReportRow) : statusPass none x = true := rfl

theorem take_one_eq_single {l : List ReportRow} {c : ReportRow}
    (h : l.take 1 = [c]) : ∃ rest, l = c :: rest := by
  cases l with
  | nil => simp at h
  | cons a t =>
    simp [List.take] at h
    exact ⟨t, by rw [h]⟩

theorem head_box_most_recent {loc : UserLocation} {δ : ℝ} {table : List ReportRow}
    {c : ReportRow}
    (hbox : boundingBoxQuery loc δ none (some 1) table = [c]) :
    ∀ x ∈ table, boxPass loc δ x = true → x.created_at ≤ c.created_at := by
  intro x hx hpass
  unfold boundingBoxQuery at hbox
  simp only [applyLimit, if_neg one_ne_zero] at hbox
  obtain ⟨rest, hsort⟩ := take_one_eq_single hbox
  have hmem : x ∈ List.insertionSort createdDesc
      (table.filter (fun r => boxPass loc δ r && statusPass none r)) := by
    rw [List.mem_insertionSort, List.mem_filter]
    exact ⟨hx, by rw [hpass, statusPass_none]; rfl⟩
  rw [hsort] at hmem
  have hsorted : List.Sorted createdDesc (c :: rest) := by
    rw [← hsort]
    exact List.sorted_insertionSort createdDesc _
  rcases List.mem_cons.mp hmem with heq | hmem2
  · rw [heq]
  · exact List.rel_of_sorted_cons hsorted x hmem2

theorem getNearest_single {loc : UserLocation} {r : ℝ} {table : List ReportRow}
    {c : ReportRow}
    (hbox : boundingBoxQuery loc (r / 111) none (some 1) table = [c]) :
    (calculateDistance loc.latitude loc.longitude
        (c.latitude.getD 0) (c.longitude.getD 0) ≤ r →
      getNearestReport loc r table = some ⟨c, calculateDistance loc.latitude
        loc.longitude (c.latitude.getD 0) (c.longitude.getD 0)⟩) ∧
    (r < calculateDistance loc.latitude loc.longitude
        (c.latitude.getD 0) (c.longitude.getD 0) →
      getNearestReport loc r table = none) := by
  constructor
  · intro hcmp
    simp only [getNearestReport, fetchReportsNearLocation]
    rw [hbox]
    simp [List.filter, decide_eq_true hcmp]
  · intro hcmp
    simp only [getNearestReport, fetchReportsNearLocation]
    rw [hbox]
    simp [List.filter, decide_eq_false (not_le.mpr hcmp)]

theorem getNearest_empty {loc : UserLocation} {r : ℝ} {table : List ReportRow}
    (hbox : boundingBoxQuery loc (r / 111) none (some 1) table = []) :
    getNearestReport loc r table = none := by
  simp only [getNearestReport, fetchReportsNearLocation]
  rw [hbox]
  simp

theorem boxPass_rowA100 : boxPass locO (100/111) rowA = true := by
  simp [boxPass, locO, rowA]
  norm_num

theorem boxPass_rowFar100 : boxPass locO (100/111) rowFarC7 = true := by
  simp [boxPass, locO, rowFarC7]
  norm_num

theorem boxPass_rowHalf100 : boxPass locO (100/111) rowHalfC7 = true := by
  simp [boxPass, locO, rowHalfC7]
  norm_num

theorem boundingBox_evalFar :
    boundingBoxQuery locO (100/111) none (some 1) [rowFarC7, rowA] = [rowFarC7] := by
  have hcd : createdDesc rowFarC7 rowA := by norm_num [createdDesc, rowFarC7, rowA]
  simp [boundingBoxQuery, applyLimit, List.filter, boxPass_rowFar100,
    boxPass_rowA100, statusPass, List.insertionSort, List.orderedInsert, hcd]

theorem boundingBox_evalHalf :
    boundingBoxQuery locO (100/111) none (some 1) [rowHalfC7, rowA] = [rowHalfC7] := by
  have hcd : createdDesc rowHalfC7 rowA := by norm_num [createdDesc, rowHalfC7, rowA]
  simp [boundingBoxQuery, applyLimit, List.filter, boxPass_rowHalf100,
    boxPass_rowA100, statusPass, List.insertionSort, List.orderedInsert, hcd]

/-- C7: with a result-count limit, the limit is applied to the bounding-box
query (ordered by creation time descending) before the exact distance
filter and distance sort.  Consequently `getNearestReport` returns the most
recently created report inside the bounding box when that report is within
the radius, and `null` otherwise; it is not guaranteed to return the report
of minimum distance, and it can return `null` even when some report within
the radius exists (both shown on explicit tables). -/
theorem claim_C7_nearest_report :
    (∀ (loc : UserLocation) (r : ℝ) (table : List ReportRow) (c : ReportRow),
      boundingBoxQuery loc (r / 111) none (some 1) table = [c] →
        (∀ x ∈ table, boxPass loc (r / 111) x = true →
          x.created_at ≤ c.created_at) ∧
        (calculateDistance loc.latitude loc.longitude
            (c.latitude.getD 0) (c.longitude.getD 0) ≤ r →
          getNearestReport loc r table = some ⟨c, calculateDistance loc.latitude
            loc.longitude (c.latitude.getD 0) (c.longitude.getD 0)⟩) ∧
        (r < calculateDistance loc.latitude loc.longitude
            (c.latitude.getD 0) (c.longitude.getD 0) →
          getNearestReport loc r table = none)) ∧
    (∀ (loc : UserLocation) (r : ℝ) (table : List ReportRow),
      boundingBoxQuery loc (r / 111) none (some 1) table = [] →
        getNearestReport loc r table = none) ∧
    (getNearestReport locO 100 [rowFarC7, rowA] = none ∧
      rowA ∈ [rowFarC7, rowA] ∧ boxPass locO (100 / 111) rowA = true ∧
      calculateDistance locO.latitude locO.longitude
        (rowA.latitude.getD 0) (rowA.longitude.getD 0) ≤ 100) ∧
    (getNearestReport locO 100 [rowHalfC7, rowA]
        = some ⟨rowHalfC7, calculateDistance 0 0 (1/2) 0⟩ ∧
      rowA ∈ [rowHalfC7, rowA] ∧ boxPass locO (100 / 111) rowA = true ∧
      calculateDistance locO.latitude locO.longitude
        (rowA.latitude.getD 0) (rowA.longitude.getD 0)
        < calculateDistance 0 0 (1/2) 0) := by
  have hprojA : calculateDistance locO.latitude locO.longitude
      (rowA.latitude.getD 0) (rowA.longitude.getD 0) = 0 := by
    simp [locO, rowA]
    exact calculateDistance_self 0 0
  have hprojFar : calculateDistance locO.latitude locO.longitude
      (rowFarC7.latitude.getD 0) (rowFarC7.longitude.getD 0)
      = calculateDistance 0 0 (9/10) 0 := by
    simp [locO, rowFarC7]
  have hprojHalf : calculateDistance locO.latitude locO.longitude
      (rowHalfC7.latitude.getD 0) (rowHalfC7.longitude.getD 0)
      = calculateDistance 0 0 (1/2) 0 := by
    simp [locO, rowHalfC7]
  refine ⟨?_, ?_, ?_, ?_⟩
  · intro loc r table c hbox
    exact ⟨head_box_most_recent hbox, (getNearest_single hbox).1,
      (getNearest_single hbox).2⟩
  · intro loc r table hbox
    exact getNearest_empty hbox
  · refine ⟨?_, by simp, boxPass_rowA100, by rw [hprojA]; norm_num⟩
    have h := (getNearest_single boundingBox_evalFar).2
    rw [hprojFar] at h
    exact h dFar_gt
  · refine ⟨?_, by simp, boxPass_rowA100, by rw [hprojA]; exact dHalf_pos⟩
    have h := (getNearest_single boundingBox_evalHalf).1
    rw [hprojHalf] at h
    exact h dHalf_le

/-! ### The location acquirer (C4)

Shallow embedding of `getCurrentLocationWithGoogleMaps` /
`getBrowserLocation` from `src/src/lib/supabase-location.ts` lines 74-213.
The nondeterministic environment (device geolocation outcomes per
successive attempt, the Google geolocation endpoint outcome, the reverse
geocoding outcome) is passed in explicitly, and the embedding additionally
counts how many device-geolocation attempts and network geolocation
requests an invocation performs. -/

namespace Geo

/-- Raw coordinates as delivered by a geolocation source. -/
structure Coords where
  latitude : ℚ
  longitude : ℚ

/-- A user location: coordinates plus optional reverse-geocoded address. -/
structure GeoLocation where
  latitude : ℚ
  longitude : ℚ
  address : Option String

/-- The environment of one invocation: the (possibly missing) environment
API key, the outcome of the i-th `getBrowserLocation` call (already mapped
to its error message by lines 95-108), the outcome of the single POST to
the Google geolocation endpoint, and the reverse-geocoding outcome
(`error` = fetch failed / non-ok response, `ok none` = status not OK or no
results, `ok (some a)` = formatted address `a`). -/
structure GeoEnv where
  envApiKey : Option String
  browserOutcomes : ℕ → Except String Coords
  geolocateOutcome : Except String Coords
  geocodeOutcome : Coords → Except String (Option String)

/-- The result of an invocation together with the number of
device-geolocation attempts and network geolocation requests it made. -/
structure GeoResult where
  result : Except String GeoLocation
  browserCalls : ℕ
  geolocateCalls : ℕ

/-- JavaScript truthiness of an optional string (`undefined` and `""` are
falsy). -/
def jsTruthy : Option String → Bool
  | none => false
  | some s => !(s == "")

/-- The `catch (browserError)` arm (lines 159-211): one POST to the Google
geolocation endpoint; on success one reverse-geocode whose failure is
non-fatal; on failure either one more `getBrowserLocation()` call (when
`fallbackToBrowser`) or a `Failed to get location: …` error carrying the
Google error.  `bc` is the number of device attempts already made. -/
def googleGeolocatePath (env : GeoEnv) (fallbackToBrowser : Bool) (bc : ℕ) :
    GeoResult :=
  match env.geolocateOutcome with
  | .ok loc =>
    match env.geocodeOutcome loc with
    | .ok addr => ⟨.ok ⟨loc.latitude, loc.longitude, addr⟩, bc, 1⟩
    | .error _ => ⟨.ok ⟨loc.latitude, loc.longitude, none⟩, bc, 1⟩
  | .error e =>
    if fallbackToBrowser then
      match env.browserOutcomes bc with
      | .ok loc => ⟨.ok ⟨loc.latitude, loc.longitude, none⟩, bc + 1, 1⟩
      | .error e2 => ⟨.error e2, bc + 1, 1⟩
    else
      ⟨.error ("Failed to get location: " ++ e), bc, 1⟩

/-- `getCurrentLocationWithGoogleMaps` (lines 121-213). -/
def getCurrentLocationWithGoogleMaps (env : GeoEnv) (apiKey : Option String)
    (fallbackToBrowser : Bool) : GeoResult :=
  let googleApiKey := if jsTruthy apiKey then apiKey else env.envApiKey
  if jsTruthy googleApiKey = false then
    if fallbackToBrowser then
      match env.browserOutcomes 0 with
      | .ok loc => ⟨.ok ⟨loc.latitude, loc.longitude, none⟩, 1, 0⟩
      | .error e => ⟨.error e, 1, 0⟩
    else
      ⟨.error "Google Maps API key not found. Please add NEXT_PUBLIC_GOOGLE_MAPS_API_KEY to your environment variables.", 0, 0⟩
  else
    match env.browserOutcomes 0 with
    | .ok loc =>
      match env.geocodeOutcome loc with
      | .ok (some addr) => ⟨.ok ⟨loc.latitude, loc.longitude, some addr⟩, 1, 0⟩
      | .ok none => ⟨.ok ⟨loc.latitude, loc.longitude, none⟩, 1, 0⟩
      | .error _ => googleGeolocatePath env fallbackToBrowser 1
    | .error _ => googleGeolocatePath env fallbackToBrowser 1

/-- An environment in which every geolocation source fails. -/
def envAllFail : GeoEnv where
  envApiKey := some "k"
  browserOutcomes := fun _ => .error "Location access denied by user."
  geolocateOutcome := .error "Google Maps Geolocation API error: 500"
  geocodeOutcome := fun _ => .error "geocode fetch failed"

end Geo

/-- C4, as falsified by the library code: with an API key present and the
default `fallbackToBrowser = true`, when the device path and the network
geolocation request both fail, `getCurrentLocationWithGoogleMaps` performs
a second device-geolocation attempt (two in total, not at most one) and
returns that second attempt's outcome instead of a
`Failed to get location` error. -/
theorem claim_C4_counterexample :
    (Geo.getCurrentLocationWithGoogleMaps Geo.envAllFail none true).browserCalls = 2 ∧
    (Geo.getCurrentLocationWithGoogleMaps Geo.envAllFail none true).geolocateCalls = 1 ∧
    (Geo.getCurrentLocationWithGoogleMaps Geo.envAllFail none true).result
      = .error "Location access denied by user." :=
  ⟨rfl, rfl, rfl⟩

/-- C4 amended: every invocation makes at most one network geolocation
request.  Only with `fallbackToBrowser = false` does it also make at most
one device-geolocation attempt, and in that mode, when the device path and
the network path both fail, it fails with the location-unavailable error
carrying the Google failure as cause; with the default
`fallbackToBrowser = true` a failed two-tier fallback triggers one
additional device-geolocation attempt (two in total) whose outcome is
returned. -/
theorem claim_C4_two_tier_amended (env : Geo.GeoEnv) (apiKey : Option String)
    (fb : Bool) :
    (Geo.getCurrentLocationWithGoogleMaps env apiKey fb).geolocateCalls ≤ 1 ∧
    (Geo.getCurrentLocationWithGoogleMaps env apiKey false).browserCalls ≤ 1 ∧
    (∀ e g : String, env.browserOutcomes 0 = .error e →
      env.geolocateOutcome = .error g →
      Geo.jsTruthy (if Geo.jsTruthy apiKey then apiKey else env.envApiKey) = true →
      (Geo.getCurrentLocationWithGoogleMaps env apiKey false).result
        = .error ("Failed to get location: " ++ g) ∧
      (Geo.getCurrentLocationWithGoogleMaps env apiKey true).browserCalls = 2) := by
  refine ⟨?_, ?_, ?_⟩
  · simp only [Geo.getCurrentLocationWithGoogleMaps, Geo.googleGeolocatePath]
    repeat' split
    all_goals simp_all
  · simp only [Geo.getCurrentLocationWithGoogleMaps, Geo.googleGeolocatePath]
    repeat' split
    all_goals simp_all
  · intro e g hb hg htr
    constructor
    · simp only [Geo.getCurrentLocationWithGoogleMaps, Geo.googleGeolocatePath]
      simp [htr, hb, hg]
    · simp only [Geo.getCurrentLocationWithGoogleMaps, Geo.googleGeolocatePath]
      rcases h2 : env.browserOutcomes 1 with loc | e2 <;> simp [htr, hb, hg, h2]

theorem claim_C4_witness :
    (Geo.getCurrentLocationWithGoogleMaps Geo.envAllFail none false).result
      = .error ("Failed to get location: "
          ++ "Google Maps Geolocation API error: 500") ∧
    (Geo.getCurrentLocationWithGoogleMaps Geo.envAllFail none false).browserCalls ≤ 1 ∧
    (Geo.getCurrentLocationWithGoogleMaps Geo.envAllFail none false).geolocateCalls ≤ 1 := by
  obtain ⟨h1, h2, h3⟩ := claim_C4_two_tier_amended Geo.envAllFail none false
  exact ⟨(h3 _ _ rfl rfl rfl).1, h2, h1⟩

/-! ### Report submission (C5)

Shallow embedding of `uploadPhotosToStorage` and `handleFormSubmit` from
`src/src/app/report-incident/page.tsx` lines 209-300.  Each selected photo
carries the outcome its storage upload would have; `Promise.all` rejects as
soon as any upload rejects, which a left-to-right `Except` sequence
models.  The `reports` table is threaded explicitly so the theorems can
speak about what was inserted. -/

namespace Incident

/-- A photo file together with the outcome of its storage upload. -/
structure PhotoUpload where
  name : String
  outcome : Except String String

/-- The coordinates selected on the map (page state `selectedLocation`). -/
structure SelectedLocation where
  lat : ℚ
  lng : ℚ
  address : Option String

/-- A row of the `reports` table as inserted by `handleFormSubmit`. -/
structure ReportInsert where
  profile_id : String
  location_string : String
  description : String
  latitude : Option ℚ
  longitude : Option ℚ
  address : Option String
  photo_urls : List String
  status : String

/-- The user-visible outcome of a submission attempt. -/
inductive SubmitResult where
  | validationFailed : SubmitResult
  | success : SubmitResult
  | failure : String → SubmitResult
deriving DecidableEq

/-- `uploadPhotosToStorage` (lines 209-235): upload every photo and collect
the public URLs; any failing upload rejects the whole `Promise.all`. -/
def uploadPhotosToStorage : List PhotoUpload → Except String (List String)
  | [] => .ok []
  | p :: rest =>
    match p.outcome with
    | .error e => .error e
    | .ok url =>
      match uploadPhotosToStorage rest with
      | .error e => .error e
      | .ok urls => .ok (url :: urls)

/-- `handleFormSubmit` (lines 237-300): validate description and profile,
upload photos when any are attached, then insert the report row; any
thrown error is caught and the submission aborted.  Returns the new table
contents together with the user-visible outcome. -/
def handleFormSubmit (description location : String)
    (userProfile : Option String) (photos : List PhotoUpload)
    (selectedLocation : Option SelectedLocation)
    (insertOutcome : Except String Unit) (reports : List ReportInsert) :
    List ReportInsert × SubmitResult :=
  if description.trim = "" then (reports, .validationFailed)
  else
    match userProfile with
    | none => (reports, .validationFailed)
    | some pid =>
      match (if photos.length > 0 then uploadPhotosToStorage photos
             else .ok []) with
      | .error e => (reports, .failure e)
      | .ok photoUrls =>
        match insertOutcome with
        | .error e => (reports, .failure e)
        | .ok _ =>
          (reports ++ [⟨pid, location, description,
            (selectedLocation.map SelectedLocation.lat),
            (selectedLocation.map SelectedLocation.lng),
            (selectedLocation.bind SelectedLocation.address),
            photoUrls, "pending"⟩], .success)

theorem upload_error_of_mem {photos : List PhotoUpload} {p : PhotoUpload}
    {e : String} (hp : p ∈ photos) (he : p.outcome = .error e) :
    ∃ e2, uploadPhotosToStorage photos = .error e2 := by
  induction photos with
  | nil => cases hp
  | cons q rest ih =>
    rcases List.mem_cons.mp hp with rfl | hmem
    · exact ⟨e, by simp [uploadPhotosToStorage, he]⟩
    · rcases hq : q.outcome with eq | url
      · exact ⟨eq, by simp [uploadPhotosToStorage, hq]⟩
      · obtain ⟨e2, he2⟩ := ih hmem
        exact ⟨e2, by simp [uploadPhotosToStorage, hq, he2]⟩

theorem upload_ok_all {photos : List PhotoUpload} {urls : List String}
    (h : uploadPhotosToStorage photos = .ok urls) :
    ∀ p ∈ photos, ∃ url, p.outcome = .ok url := by
  induction photos generalizing urls with
  | nil => intro p hp; cases hp
  | cons q rest ih =>
    intro p hp
    rcases hq : q.outcome with e | url
    · simp [uploadPhotosToStorage, hq] at h
    · rcases hrest : uploadPhotosToStorage rest with e2 | urls2
      · simp [uploadPhotosToStorage, hq, hrest] at h
      · rcases List.mem_cons.mp hp with rfl | hmem
        · exact ⟨url, hq⟩
        · exact ih hrest p hmem

end Incident

/-- C5: if any photo upload fails, the whole submission is aborted and no
report row is inserted; a row is inserted only when every requested upload
has succeeded. -/
theorem claim_C5_upload_failure_aborts (description location : String)
    (userProfile : Option String) (photos : List Incident.PhotoUpload)
    (selectedLocation : Option Incident.SelectedLocation)
    (insertOutcome : Except String Unit)
    (reports : List Incident.ReportInsert) :
    ((∃ p ∈ photos, ∃ e, p.outcome = .error e) →
      (Incident.handleFormSubmit description location userProfile photos
        selectedLocation insertOutcome reports).1 = reports) ∧
    ((Incident.handleFormSubmit description location userProfile photos
        selectedLocation insertOutcome reports).1 ≠ reports →
      ∀ p ∈ photos, ∃ url, p.outcome = .ok url) := by
  constructor
  · rintro ⟨p, hp, e, he⟩
    have hne : photos.length > 0 := List.length_pos.mpr (List.ne_nil_of_mem hp)
    obtain ⟨e2, he2⟩ := Incident.upload_error_of_mem hp he
    unfold Incident.handleFormSubmit
    split
    · rfl
    · rcases userProfile with _ | pid
      · rfl
      · simp [if_pos hne, he2]
  · intro hne p hp
    have hlen : photos.length > 0 := List.length_pos.mpr (List.ne_nil_of_mem hp)
    unfold Incident.handleFormSubmit at hne
    by_cases htrim : description.trim = ""
    · rw [if_pos htrim] at hne; simp at hne
    · rw [if_neg htrim] at hne
      rcases userProfile with _ | pid
      · simp at hne
      · rw [if_pos hlen] at hne
        rcases hup : Incident.uploadPhotosToStorage photos with e | urls
        · rw [hup] at hne; simp at hne
        · exact Incident.upload_ok_all hup p hp

/-- A photo whose storage upload fails. -/
def photoFail : Incident.PhotoUpload := ⟨"a.jpg", .error "upload failed"⟩

theorem claim_C5_witness :
    (∃ p ∈ [photoFail], ∃ e, p.outcome = Except.error e) ∧
    (Incident.handleFormSubmit "desc" "loc" (some "p1") [photoFail]
      none (Except.ok ()) []).1 = [] := by
  have hex : ∃ p ∈ [photoFail], ∃ e, p.outcome = Except.error e :=
    ⟨photoFail, List.mem_singleton.mpr rfl, "upload failed", rfl⟩
  exact ⟨hex, (claim_C5_upload_failure_aborts "desc" "loc" (some "p1")
    [photoFail] none (Except.ok ()) []).1 hex⟩

/-! ### Locate-specific-report search (C8)

Shallow embedding of `handleSearch` from
`src/src/app/locate-specific-report/page.tsx` lines 131-170.  The store
filter is `location_string.ilike.%<text>% OR address.ilike.%<text>%`; SQL
`ILIKE` is case-folded `LIKE` pattern matching, in which `%` matches any
character sequence, `_` exactly one character, and the default escape
character `\` makes the following pattern character literal.  A NULL
address satisfies no `ILIKE` condition.  PostgREST parses the `.or(...)`
argument as a logic tree in which commas separate conditions and
parentheses group them, so a raw search text containing `,`, `(` or `)`
corrupts the filter expression and the request fails. -/

namespace Search

/-- SQL `LIKE` pattern matching over explicit character lists, with the
default `\` escape: `\x` matches the literal character `x`.  A pattern
ending in a lone `\` is rejected by PostgreSQL (`LIKE pattern must not end
with escape character`), so it matches nothing; the patterns the code
builds (`%<text>%`) always end in `%` and never hit that case. -/
def likeMatch : List Char → List Char → Bool
  | [], [] => true
  | [], _ :: _ => false
  | p :: ps, [] =>
    if p = '%' then likeMatch ps []
    else false
  | p :: ps, c :: cs =>
    if p = '%' then likeMatch ps (c :: cs) || likeMatch (p :: ps) cs
    else if p = '\\' then
      (match ps with
       | [] => false
       | pe :: ps2 => (pe == c) && likeMatch ps2 cs)
    else if p = '_' then likeMatch ps cs
    else (p == c) && likeMatch ps cs
termination_by ps cs => ps.length + cs.length

/-- Postgres `ILIKE`: case-fold both operands, then `LIKE`-match. -/
def ilike (text pattern : String) : Bool :=
  likeMatch (pattern.data.map Char.toLower) (text.data.map Char.toLower)

/-- Characters that corrupt the PostgREST `.or(...)` logic-tree syntax
when interpolated raw into the filter string: an unquoted comma splits the
expression into further (malformed) conditions and parentheses change its
grouping, so the request fails with a query error instead of running the
intended filter. -/
def breaksOrSyntax (s : String) : Bool :=
  s.data.any (fun c => c = ',' || c = '(' || c = ')')

/-- The observable outcome of `handleSearch`: an all-whitespace text
alerts without issuing a request; a text that corrupts the `.or(...)`
filter string makes the request fail (caught, alert, previous results
kept); otherwise the matching reports are returned. -/
inductive SearchOutcome where
  | noQuery : SearchOutcome
  | queryError : SearchOutcome
  | results : List ReportRow → SearchOutcome

/-- `handleSearch`: a search text that is empty after trimming (that is,
all-whitespace — the `!searchAddress.trim()` guard) alerts and performs no
query; a text that breaks the interpolated `.or(...)` expression yields a
query error; otherwise the reports matching the `ILIKE` disjunction,
ordered by creation time descending. -/
def handleSearch (searchAddress : String) (table : List ReportRow) :
    SearchOutcome :=
  if searchAddress.data.all Char.isWhitespace then .noQuery
  else if breaksOrSyntax searchAddress then .queryError
  else
    .results (List.insertionSort createdDesc (table.filter (fun r =>
      ilike r.location_string ("%" ++ searchAddress ++ "%") ||
        (match r.address with
         | some a => ilike a ("%" ++ searchAddress ++ "%")
         | none => false))))

/-- Literal list-prefix test (used to state plain substring containment). -/
def startsWithL : List Char → List Char → Bool
  | [], _ => true
  | _ :: _, [] => false
  | p :: ps, c :: cs => (p == c) && startsWithL ps cs

/-- Plain contiguous-substring test. -/
def isSubstr (needle : List Char) : List Char → Bool
  | [] => startsWithL needle []
  | c :: cs => startsWithL needle (c :: cs) || isSubstr needle cs

/-- The spec's wording of the search predicate: the search text is a
case-insensitive substring of `location_string` or of `address`. -/
def matchesSpecSubstring (s : String) (r : ReportRow) : Bool :=
  isSubstr (s.data.map Char.toLower) (r.location_string.data.map Char.toLower) ||
    (match r.address with
     | some a => isSubstr (s.data.map Char.toLower) (a.data.map Char.toLower)
     | none => false)

theorem likeMatch_percent_cons (ps : List Char) (c : Char) (cs : List Char) :
    likeMatch ('%' :: ps) (c :: cs)
      = (likeMatch ps (c :: cs) || likeMatch ('%' :: ps) cs) := by
  cases ps with
  | nil => rw [likeMatch.eq_4, if_pos rfl]
  | cons pe ps2 => rw [likeMatch.eq_5, if_pos rfl]

theorem likeMatch_lit_cons {a : Char} (ps : List Char) (c : Char) (cs : List Char)
    (ha1 : a ≠ '%') (ha2 : a ≠ '_') (ha3 : a ≠ '\\') :
    likeMatch (a :: ps) (c :: cs) = ((a == c) && likeMatch ps cs) := by
  cases ps with
  | nil => rw [likeMatch.eq_4, if_neg ha1, if_neg ha3, if_neg ha2]
  | cons pe ps2 => rw [likeMatch.eq_5, if_neg ha1, if_neg ha3, if_neg ha2]

theorem likeMatch_percent_nil : ∀ cs : List Char, likeMatch ['%'] cs = true
  | [] => by rw [likeMatch.eq_3, if_pos rfl, likeMatch.eq_1]
  | c :: cs => by
    rw [likeMatch_percent_cons, likeMatch_percent_nil cs]
    simp

theorem likeMatch_percent_iff (ps : List Char) :
    ∀ cs : List Char, (likeMatch ('%' :: ps) cs = true ↔
      ∃ n, likeMatch ps (cs.drop n) = true)
  | [] => by
    rw [likeMatch.eq_3, if_pos rfl]
    constructor
    · intro h; exact ⟨0, h⟩
    · rintro ⟨n, hn⟩; simpa using hn
  | c :: cs => by
    rw [likeMatch_percent_cons, Bool.or_eq_true, likeMatch_percent_iff ps cs]
    constructor
    · rintro (h | ⟨n, hn⟩)
      · exact ⟨0, h⟩
      · exact ⟨n + 1, hn⟩
    · rintro ⟨n, hn⟩
      cases n with
      | zero => exact Or.inl hn
      | succ m => exact Or.inr ⟨m, hn⟩

/-- A pattern of wildcard-free literals followed by `%` matches exactly the
strings starting with those literals. -/
theorem likeMatch_lit_percent {s : List Char} (hw1 : '%' ∉ s) (hw2 : '_' ∉ s)
    (hw3 : '\\' ∉ s) :
    ∀ cs : List Char, (likeMatch (s ++ ['%']) cs = true ↔ startsWithL s cs = true) := by
  induction s with
  | nil =>
    intro cs
    simp only [List.nil_append]
    rw [likeMatch_percent_nil cs]
    simp [startsWithL]
  | cons a s ih =>
    have ha1 : a ≠ '%' := fun h => hw1 (h ▸ List.mem_cons_self a s)
    have ha2 : a ≠ '_' := fun h => hw2 (h ▸ List.mem_cons_self a s)
    have ha3 : a ≠ '\\' := fun h => hw3 (h ▸ List.mem_cons_self a s)
    have hw1' : '%' ∉ s := fun h => hw1 (List.mem_cons_of_mem a h)
    have hw2' : '_' ∉ s := fun h => hw2 (List.mem_cons_of_mem a h)
    have hw3' : '\\' ∉ s := fun h => hw3 (List.mem_cons_of_mem a h)
    intro cs
    cases cs with
    | nil =>
      rw [List.cons_append, likeMatch.eq_3, if_neg ha1]
      simp [startsWithL]
    | cons c cs2 =>
      rw [List.cons_append, likeMatch_lit_cons _ _ _ ha1 ha2 ha3]
      simp only [startsWithL]
      rw [Bool.and_eq_true, Bool.and_eq_true, ih hw1' hw2' hw3' cs2]

theorem isSubstr_iff_drop (needle : List Char) :
    ∀ cs : List Char, (isSubstr needle cs = true ↔
      ∃ n, startsWithL needle (cs.drop n) = true)
  | [] => by
    rw [isSubstr]
    constructor
    · intro h; exact ⟨0, h⟩
    · rintro ⟨n, hn⟩; simpa using hn
  | c :: cs => by
    rw [isSubstr, Bool.or_eq_true, isSubstr_iff_drop needle cs]
    constructor
    · rintro (h | ⟨n, hn⟩)
      · exact ⟨0, h⟩
      · exact ⟨n + 1, hn⟩
    · rintro ⟨n, hn⟩
      cases n with
      | zero => exact Or.inl hn
      | succ m => exact Or.inr ⟨m, hn⟩

/-- `ILIKE` with pattern `%s%` for wildcard-free `s` is exactly
case-insensitive substring containment. -/
theorem ilike_percent_eq_isSubstr {s : String}
    (hw1 : '%' ∉ s.data.map Char.toLower) (hw2 : '_' ∉ s.data.map Char.toLower)
    (hw3 : '\\' ∉ s.data.map Char.toLower)
    (text : String) :
    ilike text ("%" ++ s ++ "%")
      = isSubstr (s.data.map Char.toLower) (text.data.map Char.toLower) := by
  have hpat : ("%" ++ s ++ "%" : String).data.map Char.toLower
      = '%' :: (s.data.map Char.toLower ++ ['%']) := by
    simp [String.data_append]
  rw [ilike, hpat]
  rcases h1 : likeMatch ('%' :: (s.data.map Char.toLower ++ ['%']))
      (text.data.map Char.toLower) with _ | _
  · rcases h2 : isSubstr (s.data.map Char.toLower) (text.data.map Char.toLower)
      with _ | _
    · rfl
    · exfalso
      rw [isSubstr_iff_drop] at h2
      obtain ⟨n, hn⟩ := h2
      have : likeMatch ('%' :: (s.data.map Char.toLower ++ ['%']))
          (text.data.map Char.toLower) = true := by
        rw [likeMatch_percent_iff]
        exact ⟨n, (likeMatch_lit_percent hw1 hw2 hw3 _).mpr hn⟩
      rw [h1] at this
      cases this
  · rw [likeMatch_percent_iff] at h1
    obtain ⟨n, hn⟩ := h1
    rw [likeMatch_lit_percent hw1 hw2 hw3] at hn
    have : isSubstr (s.data.map Char.toLower) (text.data.map Char.toLower) = true := by
      rw [isSubstr_iff_drop]
      exact ⟨n, hn⟩
    rw [this]

end Search

/-- A report whose location string `"abc"` contains no underscore and
whose address is null. -/
def rowPlain : ReportRow := ⟨6, 1, none, none, "pending", "abc", none⟩

/-- The spec's example report, with address `"123 Oak Avenue"`. -/
def rowOak : ReportRow := ⟨7, 1, none, none, "pending", "loc", some "123 Oak Avenue"⟩

/-- C8, as falsified by the code: the search text `"_"` is an SQL `LIKE`
wildcard, so the query returns a report whose fields do not contain `"_"`
as a substring at all — the result is not exactly the case-insensitive
substring matches. -/
theorem claim_C8_counterexample :
    Search.handleSearch "_" [rowPlain] = Search.SearchOutcome.results [rowPlain] ∧
    Search.matchesSpecSubstring "_" rowPlain = false := by
  constructor
  · have hmap : ("%_%" : String).data.map Char.toLower = ['%', '_', '%'] := by decide
    have habc : ("abc" : String).data.map Char.toLower = ['a', 'b', 'c'] := by decide
    have hlike : Search.ilike "abc" "%_%" = true := by
      rw [Search.ilike, hmap, habc]
      simp [Search.likeMatch]
    rw [Search.handleSearch, if_neg (by decide), if_neg (by decide)]
    simp [List.filter, List.insertionSort, rowPlain, hlike]
  · decide

/-- C8 amended: for every search text whose query actually runs and whose
case-folded form contains no SQL `LIKE` wildcard or escape character
(`%`, `_` or `\\`), the search returns exactly the reports for which the
text is a case-insensitive substring of `location_string` or of `address`;
in particular `"Oak"` matches a report whose address is
`"123 Oak Avenue"`.  (Texts containing `%`, `_` or `\\` are matched with
`LIKE` pattern semantics instead — see the counterexample; a text holding
a comma or parenthesis corrupts the `.or(...)` filter string and the
request fails; an all-whitespace text performs no query at all.) -/
theorem claim_C8_substring_search (s : String) (table res : List ReportRow)
    (r : ReportRow)
    (hw1 : '%' ∉ s.data.map Char.toLower) (hw2 : '_' ∉ s.data.map Char.toLower)
    (hw3 : '\\' ∉ s.data.map Char.toLower)
    (hres : Search.handleSearch s table = Search.SearchOutcome.results res) :
    r ∈ res ↔ r ∈ table ∧ Search.matchesSpecSubstring s r = true := by
  have hpatf : ∀ rr : ReportRow,
      (Search.ilike rr.location_string ("%" ++ s ++ "%") ||
        (match rr.address with
         | some a => Search.ilike a ("%" ++ s ++ "%")
         | none => false))
      = Search.matchesSpecSubstring s rr := by
    intro rr
    rcases hra : rr.address with _ | a
    · simp only [Search.matchesSpecSubstring, hra]
      rw [Search.ilike_percent_eq_isSubstr hw1 hw2 hw3]
    · simp only [Search.matchesSpecSubstring, hra]
      rw [Search.ilike_percent_eq_isSubstr hw1 hw2 hw3,
        Search.ilike_percent_eq_isSubstr hw1 hw2 hw3]
  rw [Search.handleSearch] at hres
  split at hres
  · exact absurd hres (by simp)
  · split at hres
    · exact absurd hres (by simp)
    · injection hres with hres
      rw [← hres, List.mem_insertionSort, List.mem_filter]
      constructor
      · rintro ⟨hmem, hf⟩
        rw [hpatf r] at hf
        exact ⟨hmem, hf⟩
      · rintro ⟨hmem, hf⟩
        rw [← hpatf r] at hf
        exact ⟨hmem, hf⟩

theorem claim_C8_witness :
    ('%' ∉ ("Oak" : String).data.map Char.toLower ∧
      '_' ∉ ("Oak" : String).data.map Char.toLower ∧
      '\\' ∉ ("Oak" : String).data.map Char.toLower) ∧
    Search.handleSearch "Oak" [rowOak] = Search.SearchOutcome.results [rowOak] ∧
    (rowOak ∈ [rowOak] ↔ rowOak ∈ [rowOak] ∧
      Search.matchesSpecSubstring "Oak" rowOak = true) := by
  have hmap : ("%Oak%" : String).data.map Char.toLower
      = ['%', 'o', 'a', 'k', '%'] := by decide
  have haddr : ("123 Oak Avenue" : String).data.map Char.toLower
      = ['1', '2', '3', ' ', 'o', 'a', 'k', ' ', 'a', 'v', 'e', 'n', 'u', 'e'] := by
    decide
  have hlike : Search.ilike "123 Oak Avenue" "%Oak%" = true := by
    rw [Search.ilike, hmap, haddr]
    simp [Search.likeMatch]
  have hsearch : Search.handleSearch "Oak" [rowOak]
      = Search.SearchOutcome.results [rowOak] := by
    rw [Search.handleSearch, if_neg (by decide), if_neg (by decide)]
    simp [List.filter, List.insertionSort, rowOak, hlike]
  exact ⟨⟨by decide, by decide, by decide⟩, hsearch,
    claim_C8_substring_search "Oak" [rowOak] [rowOak] rowOak
      (by decide) (by decide) (by decide) hsearch⟩

end CityRepair
